import Mathlib

/-!
Shallow embedding of the client of the "teacher" educational-presentation
generator, focused on the pieces the specification claims talk about:

* the zustand state store (`src/frontend/src/store/appStore.js`),
* the socket event handlers and `handleStartGeneration` of the home page,
* the pause/resume logic of the presentation player and conversation flow
  (`src/frontend/src/pages/PresentationPage.jsx`),
* the conversation/slide-context request builders
  (`src/frontend/src/api/client.js` call sites).

JavaScript objects are modelled as partial maps from key strings to a
JavaScript value type `JsVal`; `undefined` is `Option.none`.  Machine
numbers that the claims care about (slide indices, playback positions)
are modelled as `Int` resp. `Rat`.  JavaScript quirks that matter are
modelled explicitly where they occur, most importantly
`length - 1 || 0` in `nextSlide` (which yields `-1` for an empty list,
because `-1` is truthy) and out-of-range array indexing yielding
`undefined` (here: `none`).
-/

namespace Teacher

/-- A JavaScript value, as far as the client state needs: strings,
numbers, booleans, null, and (nested) plain objects. -/
inductive JsVal : Type where
  | vstr : String → JsVal
  | vnum : Rat → JsVal
  | vbool : Bool → JsVal
  | vnull : JsVal
  | vobj : List (String × JsVal) → JsVal

/-- A JavaScript object: a partial map from keys to values.
A key mapped to `none` is absent (`undefined`). -/
def Obj : Type := String → Option JsVal

/-- Build an object from a key/value list (first binding wins). -/
def objOfList (l : List (String × JsVal)) : Obj :=
  fun k => (l.find? (fun p => p.1 == k)).map (fun p => p.2)

/-- The JavaScript spread `\x7b ...a, ...b \x7d`: keys of `b` override keys of `a`. -/
def jsSpread (a b : Obj) : Obj :=
  fun k => match b k with
  | some v => some v
  | none => a k

/-- JavaScript array indexing `l[i]` with an integer index:
`undefined` (`none`) when out of range or negative. -/
def jsIndex {α : Type} (l : List α) (i : Int) : Option α :=
  if 0 ≤ i then l[i.toNat]? else none

/-- JavaScript `String.prototype.trim()`: strip leading and trailing
whitespace. -/
def jsTrim (s : String) : String :=
  ⟨((s.data.dropWhile Char.isWhitespace).reverse.dropWhile Char.isWhitespace).reverse⟩

/-- A slide of `course.slides_content`: the fields the client reads.
Absent fields are `none`. -/
structure Slide where
  title : Option String
  content : Option String
  transcript : Option String
deriving DecidableEq

/-- A course object as held in `currentCourse` / the `courses` library. -/
structure Course where
  session_id : String
  course_title : String
  slides_content : Option (List Slide)
  audio_files : List String
deriving DecidableEq

/-- A conversation transcript entry added by `addConversationMessage`. -/
structure Message where
  role : String
  content : String
  timestamp : String
deriving DecidableEq

/-- An entry of the `slideImages` component state (from the
`/course/:id/slides` endpoint). -/
structure SlideImage where
  image_url : String
deriving DecidableEq

/-- The zustand store state of `appStore.js` (the data fields; the
actions are modelled as functions `AppState → AppState` below). -/
structure AppState where
  isGenerating : Bool
  currentStep : Option String
  progress : Rat
  courseConfig : Obj
  userSettings : Obj
  availableVoices : List JsVal
  courseTemplates : List JsVal
  currentSession : Option String
  currentCourse : Option Course
  courses : List Course
  currentSlide : Int
  isPlaying : Bool
  audioProgress : Rat
  isConversationActive : Bool
  conversationHistory : List Message

/-- Initial value of `courseConfig` in `appStore.js`. -/
def initialCourseConfig : Obj := objOfList
  [("topic", .vstr ""),
   ("complexity", .vstr "intermediate"),
   ("duration", .vstr "45-60 minutes"),
   ("learningStyle", .vstr "visual"),
   ("slideCount", .vstr "auto"),
   ("contentDensity", .vstr "medium"),
   ("batchSize", .vnum 5),
   ("voice", .vstr "default"),
   ("speed", .vnum 1),
   ("prerequisitesHandling", .vstr "auto"),
   ("specializedFocus", .vstr "balanced"),
   ("presentationStyle", .vstr "professional"),
   ("visualStyle", .vstr "modern"),
   ("colorScheme", .vstr "default"),
   ("theme", .vstr "dark"),
   ("layout", .vstr "modern"),
   ("animations", .vbool true),
   ("autoAdvance", .vbool true),
   ("customizations", .vobj [])]

/-- Initial value of `userSettings` in `appStore.js`. -/
def initialUserSettings : Obj := objOfList
  [("tts", .vobj [("voice", .vstr "default"), ("speed", .vnum 1), ("volume", .vnum (8/10))]),
   ("presentation", .vobj [("theme", .vstr "dark"), ("layout", .vstr "modern"),
                           ("animations", .vbool true), ("auto_advance", .vbool true)]),
   ("course_defaults", .vobj [("complexity", .vstr "intermediate"),
                              ("duration", .vstr "45-60 minutes"),
                              ("learning_style", .vstr "visual"),
                              ("content_density", .vstr "medium"),
                              ("batch_size", .vnum 5)]),
   ("advanced", .vobj [("prerequisites_handling", .vstr "auto"),
                       ("specialized_focus", .vstr "balanced"),
                       ("presentation_style", .vstr "professional")])]

/-- Initial state of the store. -/
def initialState : AppState where
  isGenerating := false
  currentStep := none
  progress := 0
  courseConfig := initialCourseConfig
  userSettings := initialUserSettings
  availableVoices := []
  courseTemplates := []
  currentSession := none
  currentCourse := none
  courses := []
  currentSlide := 0
  isPlaying := false
  audioProgress := 0
  isConversationActive := false
  conversationHistory := []

/-- Store action `setGenerating`. -/
def setGenerating (g : Bool) (s : AppState) : AppState :=
  { s with isGenerating := g }

/-- Store action `setCurrentSession`. -/
def setCurrentSession (sid : Option String) (s : AppState) : AppState :=
  { s with currentSession := sid }

/-- Store action `setCurrentCourse`. -/
def setCurrentCourse (c : Option Course) (s : AppState) : AppState :=
  { s with currentCourse := c }

/-- Store action `updateCourseConfig`: spreads the update over the old
`courseConfig` (a shallow merge); the zustand `set` then shallow-merges the
single `courseConfig` key back into the store, leaving all other store
fields untouched. -/
def updateCourseConfig (config : Obj) (s : AppState) : AppState :=
  { s with courseConfig := jsSpread s.courseConfig config }

/-- Store action `updateUserSettings`, same shape as `updateCourseConfig`. -/
def updateUserSettings (settingsUpdate : Obj) (s : AppState) : AppState :=
  { s with userSettings := jsSpread s.userSettings settingsUpdate }

/-- Store action `addCourse`: prepends the course to the library list. -/
def addCourse (course : Course) (s : AppState) : AppState :=
  { s with courses := course :: s.courses }

/-- Store action `removeCourse`: drops every course whose `session_id`
equals the given one (`!==` in the source). -/
def removeCourse (sessionId : String) (s : AppState) : AppState :=
  { s with courses := s.courses.filter (fun course => !(course.session_id == sessionId)) }

/-- The `maxSlide` computation shared by `nextSlide` (and `hasNextSlide`):
`state.currentCourse?.slides_content?.length - 1 || 0`.
When `currentCourse` or `slides_content` is absent, `undefined - 1` is
`NaN`, which is falsy, so `|| 0` gives `0`.  When the list is present,
`length - 1` is kept unless it is `0` (falsy); note that for an empty
list this yields `-1`, which is truthy and therefore NOT replaced by `0`. -/
def maxSlide (currentCourse : Option Course) : Int :=
  match currentCourse with
  | none => 0
  | some c =>
    match c.slides_content with
    | none => 0
    | some slides =>
      if (slides.length : Int) - 1 = 0 then 0 else (slides.length : Int) - 1

/-- Store action `nextSlide`. -/
def nextSlide (s : AppState) : AppState :=
  { s with currentSlide := min (s.currentSlide + 1) (maxSlide s.currentCourse) }

/-- Store action `previousSlide`. -/
def previousSlide (s : AppState) : AppState :=
  { s with currentSlide := max (s.currentSlide - 1) 0 }

/-- Store action `addConversationMessage`: appends at the end. -/
def addConversationMessage (message : Message) (s : AppState) : AppState :=
  { s with conversationHistory := s.conversationHistory ++ [message] }

/-- Store action `clearConversationHistory`. -/
def clearConversationHistory (s : AppState) : AppState :=
  { s with conversationHistory := [] }

/-- Store getter `getCurrentSlideData`:
returns `null` when `currentCourse?.slides_content` is absent, otherwise
`slides_content[currentSlide] || null` (out-of-range indexing is
`undefined`, hence `null`). -/
def getCurrentSlideData (s : AppState) : Option Slide :=
  match s.currentCourse with
  | none => none
  | some c =>
    match c.slides_content with
    | none => none
    | some slides => jsIndex slides s.currentSlide

/-- The payload of the `course_complete` socket event (the fields the
handler reads into the store). -/
structure CompleteEvent where
  session_id : String
  course_data : Course

/-- Effect of the course-complete socket handler on the store, in
source order: `setCurrentSession(data.session_id)`,
`setCurrentCourse(data.course_data)`, `setGenerating(false)`.  (The
handler additionally clears component-local progress details, stops the
health check, shows a toast and navigates; none of that touches the
store.) -/
def handleCourseComplete (data : CompleteEvent) (s : AppState) : AppState :=
  setGenerating false (setCurrentCourse (some data.course_data)
    (setCurrentSession (some data.session_id) s))

/-- Effect of the course-error socket handler on the store: only
`setGenerating(false)` (plus component-local cleanup and a toast). -/
def handleCourseError (s : AppState) : AppState :=
  setGenerating false s

/-- The generate-course request issued by `handleStartGeneration`
(`courseAPI.generateCourse(courseConfig)`). -/
structure GenRequest where
  payload : Obj

/-- `handleStartGeneration` of the home page, as a function from the
store state to the new store state and the optionally issued request.

* `courseConfig.topic.trim()` empty: an error toast is shown and the
  function returns before touching the store or the network.
* `topic` absent or not a string: `.trim()` throws, the async function
  rejects before touching the store or the network.
* otherwise `setGenerating(true)` runs; if the socket (re)connection
  step fails (`connectOk = false`) the catch block runs
  `setGenerating(false)` and no request is issued, else the
  generate-course request is issued with the current `courseConfig`.
  (Handling the response of the request - joining the session room and
  `setCurrentSession` - is outside the modelled effect of this function.) -/
def handleStartGeneration (connectOk : Bool) (s : AppState) :
    AppState × Option GenRequest :=
  match s.courseConfig "topic" with
  | some (JsVal.vstr t) =>
    if jsTrim t = "" then (s, none)
    else if connectOk then (setGenerating true s, some ⟨s.courseConfig⟩)
    else (setGenerating false (setGenerating true s), none)
  | _ => (s, none)

/-- Effect of `processRecording` on the conversation transcript, given the
transcription text returned by the STT endpoint and the answer of the AI
responder (and the two timestamps).  The guard mirrors the source:
`if (transcriptionText && transcriptionText.trim())`; when it fails only
a toast is shown. -/
def processRecording (transcriptionText aiResponseText ts1 ts2 : String)
    (s : AppState) : AppState :=
  if transcriptionText ≠ "" ∧ jsTrim transcriptionText ≠ "" then
    addConversationMessage ⟨"teacher", aiResponseText, ts2⟩
      (addConversationMessage ⟨"user", transcriptionText, ts1⟩ s)
  else s

/-- The slide-context object sent to the conversation endpoints. -/
structure SlideContextMsg where
  slide_number : Int
  transcript : String
  slide_image_url : Option String
deriving DecidableEq

/-- `getCurrentSlideImageUrl` of the presentation page:
`slideImages[currentSlide].image_url` when the list is nonempty and the
index hits an entry, else `null`. -/
def getCurrentSlideImageUrl (slideImages : List SlideImage)
    (currentSlide : Int) : Option String :=
  if 0 < slideImages.length then
    match jsIndex slideImages currentSlide with
    | some si => some si.image_url
    | none => none
  else none

/-- The slide context built at the `startConversation` call site
(lines 325-329 of `PresentationPage.jsx`):
`slide_number` is the current slide index plus one, `transcript` is the
slide transcript or the empty string,
`slide_image_url: getCurrentSlideImageUrl()`. -/
def startConversationContext (s : AppState)
    (slideImages : List SlideImage) : SlideContextMsg where
  slide_number := s.currentSlide + 1
  transcript :=
    match getCurrentSlideData s with
    | some slideData => slideData.transcript.getD ""
    | none => ""
  slide_image_url := getCurrentSlideImageUrl slideImages s.currentSlide

/-- The slide context built at the `askQuestion` call site inside
`processRecording` (lines 439-441 of `PresentationPage.jsx`), embedded
independently from its own source lines. -/
def askQuestionContext (s : AppState)
    (slideImages : List SlideImage) : SlideContextMsg where
  transcript :=
    match getCurrentSlideData s with
    | some slideData => slideData.transcript.getD ""
    | none => ""
  slide_number := s.currentSlide + 1
  slide_image_url := getCurrentSlideImageUrl slideImages s.currentSlide

namespace Player

/-- Component-local state of the presentation player
(`PresentationPage.jsx`): the playback position of the audio element
(`none` while no audio is loaded), the store flags `isPlaying` and
`isConversationActive` flags, and the component states `pausedPosition`,
`showResumeOptions`, `manuallyResumed`. -/
structure PlayerState where
  audioPos : Option Rat
  isPlaying : Bool
  pausedPosition : Rat
  showResumeOptions : Bool
  manuallyResumed : Bool
  isConversationActive : Bool
deriving DecidableEq

/-- The player state on mount. -/
def initPlayer : PlayerState where
  audioPos := none
  isPlaying := false
  pausedPosition := 0
  showResumeOptions := false
  manuallyResumed := false
  isConversationActive := false

/-- `pauseAudio`: when an audio element exists, record its
`currentTime` in `pausedPosition` and stop playing. -/
def pauseAudio (p : PlayerState) : PlayerState :=
  match p.audioPos with
  | some pos => { p with pausedPosition := pos, isPlaying := false }
  | none => p

/-- `startSlideAudio(overridePosition)`: on the playable path
(`hasAudio = true`) the position of the audio element is set to
`overridePosition !== null ? overridePosition : pausedPosition` and
playback starts; when the slide has no transcript or no audio can be
loaded, nothing happens. -/
def startSlideAudio (hasAudio : Bool) (overridePosition : Option Rat)
    (p : PlayerState) : PlayerState :=
  if hasAudio then
    { p with audioPos := some (overridePosition.getD p.pausedPosition),
             isPlaying := true }
  else p

/-- `resumeAudio(fromBeginning)`: hide the resume dialog, mark the slide
manually resumed, and either restart from position `0` (also resetting
`pausedPosition`) or continue from `pausedPosition`. -/
def resumeAudio (fromBeginning hasAudio : Bool) (p : PlayerState) : PlayerState :=
  let p1 := { p with showResumeOptions := false, manuallyResumed := true }
  if fromBeginning then
    startSlideAudio hasAudio (some 0) { p1 with pausedPosition := 0 }
  else
    startSlideAudio hasAudio none p1

/-- `startConversation` (success path): pause the audio and save its
position when it was playing, then activate the conversation. -/
def startConversation (p : PlayerState) : PlayerState :=
  let p1 :=
    if p.isPlaying && p.audioPos.isSome then
      { p with pausedPosition := p.audioPos.getD 0, isPlaying := false }
    else p
  { p1 with isConversationActive := true }

/-- `endConversation` (success path): deactivate the conversation, then
show the resume dialog only if `pausedPosition > 0`. -/
def endConversation (p : PlayerState) : PlayerState :=
  let p1 := { p with isConversationActive := false }
  if 0 < p.pausedPosition then { p1 with showResumeOptions := true } else p1

/-- Effect of `handleSlideChange` on the player fields: pause, reset
`pausedPosition` and the manual-resume flag (the slide index move is in
the store model). -/
def handleSlideChange (p : PlayerState) : PlayerState :=
  let p1 := pauseAudio p
  { p1 with pausedPosition := 0, manuallyResumed := false }

/-- Behaviour of the audio onended handler: `setPlaying(false)`,
`setPausedPosition(0)`. -/
def audioEnded (p : PlayerState) : PlayerState :=
  { p with isPlaying := false, pausedPosition := 0 }

/-- One user/system step of the player.  The `showResumeOptions = false`
guards reflect that the resume-options dialog is a full-screen modal
overlay: while it is shown, the only reachable controls are its two
`resumeAudio` buttons. -/
inductive Step : PlayerState → PlayerState → Prop where
  | pause (p : PlayerState) :
      p.showResumeOptions = false → Step p (pauseAudio p)
  | play (p : PlayerState) (hasAudio : Bool) :
      p.showResumeOptions = false → Step p (startSlideAudio hasAudio none p)
  | slideChange (p : PlayerState) :
      p.showResumeOptions = false → Step p (handleSlideChange p)
  | convoStart (p : PlayerState) :
      p.showResumeOptions = false → p.isConversationActive = false →
      Step p (startConversation p)
  | convoEnd (p : PlayerState) :
      p.isConversationActive = true → Step p (endConversation p)
  | resume (p : PlayerState) (fromBeginning hasAudio : Bool) :
      p.showResumeOptions = true → Step p (resumeAudio fromBeginning hasAudio p)
  | ended (p : PlayerState) : Step p (audioEnded p)

/-- Player states reachable from the mount state. -/
inductive Reachable : PlayerState → Prop where
  | init : Reachable initPlayer
  | step {p q : PlayerState} : Reachable p → Step p q → Reachable q

end Player

/-! ## Theorems -/

/-- `true` unless a slide list is loaded and empty. -/
def slidesNonempty (currentCourse : Option Course) : Bool :=
  match currentCourse with
  | some c =>
    match c.slides_content with
    | some [] => false
    | _ => true
  | none => true

theorem maxSlide_nonneg (currentCourse : Option Course)
    (h : slidesNonempty currentCourse = true) : 0 ≤ maxSlide currentCourse := by
  cases currentCourse with
  | none => simp [maxSlide]
  | some c =>
    cases hc : c.slides_content with
    | none => simp [maxSlide, hc]
    | some slides =>
      cases slides with
      | nil => simp [slidesNonempty, hc] at h
      | cons a l =>
        simp only [maxSlide, hc, List.length_cons]
        split <;> omega

/-- A store state whose loaded course has an empty `slides_content` list. -/
def cexEmptyDeck : AppState :=
  { initialState with
      currentCourse := some ⟨"cex-empty", "Empty deck", some [], []⟩ }

/-- A store state with a three-slide deck but `currentSlide = 100`. -/
def cexHighIndex : AppState :=
  { initialState with
      currentCourse := some ⟨"cex-high", "Three slides",
        some [⟨none, none, none⟩, ⟨none, none, none⟩, ⟨none, none, none⟩], []⟩,
      currentSlide := 100 }

/-- Claim C1 counterexample: with a loaded course whose `slides_content`
is the empty list (`length - 1 || 0` evaluates to `-1`, which is truthy),
`nextSlide` drives `currentSlide` from `0` to `-1`, violating the claimed
lower bound; and `previousSlide` does not clamp from above, so from
`currentSlide = 100` over a three-slide deck it yields `99`, above the
last slide index `2`. -/
theorem slide_nav_bounds_cex :
    (nextSlide cexEmptyDeck).currentSlide = -1 ∧
    ¬ (0 ≤ (nextSlide cexEmptyDeck).currentSlide) ∧
    (previousSlide cexHighIndex).currentSlide = 99 ∧
    maxSlide cexHighIndex.currentCourse = 2 ∧
    ¬ ((previousSlide cexHighIndex).currentSlide ≤ maxSlide cexHighIndex.currentCourse) := by
  refine ⟨?_, ?_, ?_, ?_, ?_⟩ <;> decide

/-- Claim C1, amended: provided `currentSlide` starts within
`[0, max(maxSlide, 0)]` and the loaded slide list (if any) is nonempty,
`nextSlide` sets `currentSlide` to `min(currentSlide + 1, maxSlide)` and
`previousSlide` sets it to `max(currentSlide - 1, 0)`, and after either
operation `currentSlide` stays within `[0, max(maxSlide, 0)]` (where
`maxSlide` is the last slide index, or `0` when no course or no slide
list is loaded).  Without the nonemptiness proviso `nextSlide` can reach
`-1`, and without the upper-bound proviso `previousSlide` can land above
the last index, as the counterexample shows. -/
theorem slide_nav_bounds (s : AppState)
    (h0 : 0 ≤ s.currentSlide)
    (h1 : s.currentSlide ≤ max (maxSlide s.currentCourse) 0)
    (h2 : slidesNonempty s.currentCourse = true) :
    (nextSlide s).currentSlide = min (s.currentSlide + 1) (maxSlide s.currentCourse) ∧
    (previousSlide s).currentSlide = max (s.currentSlide - 1) 0 ∧
    0 ≤ (nextSlide s).currentSlide ∧
    (nextSlide s).currentSlide ≤ max (maxSlide s.currentCourse) 0 ∧
    0 ≤ (previousSlide s).currentSlide ∧
    (previousSlide s).currentSlide ≤ max (maxSlide s.currentCourse) 0 := by
  have hM := maxSlide_nonneg s.currentCourse h2
  rw [max_eq_left hM] at h1
  refine ⟨rfl, rfl, ?_, ?_, ?_, ?_⟩
  · show 0 ≤ min (s.currentSlide + 1) (maxSlide s.currentCourse)
    rw [min_def]
    split_ifs <;> omega
  · show min (s.currentSlide + 1) (maxSlide s.currentCourse) ≤ max (maxSlide s.currentCourse) 0
    rw [max_eq_left hM, min_def]
    split_ifs <;> omega
  · show 0 ≤ max (s.currentSlide - 1) 0
    rw [max_def]
    split_ifs <;> omega
  · show max (s.currentSlide - 1) 0 ≤ max (maxSlide s.currentCourse) 0
    rw [max_eq_left hM, max_def]
    split_ifs <;> omega

/-- A one-slide deck state for the C1 witness. -/
def wDeckState : AppState :=
  { initialState with
      currentCourse := some ⟨"w1", "One slide", some [⟨some "T", none, some "hi"⟩], []⟩ }

/-- Witness for the amended claim C1 at a concrete in-range state. -/
theorem slide_nav_bounds_witness :
    ((0 : Int) ≤ wDeckState.currentSlide ∧
     wDeckState.currentSlide ≤ max (maxSlide wDeckState.currentCourse) 0 ∧
     slidesNonempty wDeckState.currentCourse = true) ∧
    ((nextSlide wDeckState).currentSlide =
       min (wDeckState.currentSlide + 1) (maxSlide wDeckState.currentCourse) ∧
     (previousSlide wDeckState).currentSlide = max (wDeckState.currentSlide - 1) 0 ∧
     0 ≤ (nextSlide wDeckState).currentSlide ∧
     (nextSlide wDeckState).currentSlide ≤ max (maxSlide wDeckState.currentCourse) 0 ∧
     0 ≤ (previousSlide wDeckState).currentSlide ∧
     (previousSlide wDeckState).currentSlide ≤ max (maxSlide wDeckState.currentCourse) 0) :=
  ⟨⟨by decide, by decide, by decide⟩,
   slide_nav_bounds wDeckState (by decide) (by decide) (by decide)⟩

/-- Claim C2: the `course_complete` handler leaves the store with
`isGenerating = false`, `currentSession` the session id of the event and
`currentCourse` the course data of the event; the course-error handler
leaves the store with `isGenerating = false` and `currentSession`,
`currentCourse` untouched.  Both terminal handlers end with
`isGenerating = false`. -/
theorem terminal_events_clear_generating (data : CompleteEvent) (s : AppState) :
    (handleCourseComplete data s).isGenerating = false ∧
    (handleCourseComplete data s).currentSession = some data.session_id ∧
    (handleCourseComplete data s).currentCourse = some data.course_data ∧
    (handleCourseError s).isGenerating = false ∧
    (handleCourseError s).currentSession = s.currentSession ∧
    (handleCourseError s).currentCourse = s.currentCourse :=
  ⟨rfl, rfl, rfl, rfl, rfl, rfl⟩

/-- Claim C3: a successfully processed recording whose transcription is
not whitespace-only appends exactly the user message (with the
transcription as content) followed by the teacher message (with the AI
answer as content); a transcription that trims to the empty string
appends nothing. -/
theorem conversation_transcript_append (t a ts1 ts2 : String) (s : AppState) :
    (jsTrim t ≠ "" →
      (processRecording t a ts1 ts2 s).conversationHistory =
        s.conversationHistory ++ [⟨"user", t, ts1⟩, ⟨"teacher", a, ts2⟩]) ∧
    (jsTrim t = "" →
      (processRecording t a ts1 ts2 s).conversationHistory = s.conversationHistory) := by
  constructor
  · intro h
    have ht : t ≠ "" := by
      intro he
      apply h
      rw [he]
      decide
    unfold processRecording
    rw [if_pos ⟨ht, h⟩]
    simp [addConversationMessage]
  · intro h
    unfold processRecording
    rw [if_neg (fun hc => hc.2 h)]

/-- Witness for claim C3: a real transcription appends the two messages;
a whitespace-only transcription appends none. -/
theorem conversation_transcript_append_witness :
    (jsTrim "hi" ≠ "" ∧
     (processRecording "hi" "ok" "t1" "t2" initialState).conversationHistory =
       initialState.conversationHistory ++ [⟨"user", "hi", "t1"⟩, ⟨"teacher", "ok", "t2"⟩]) ∧
    (jsTrim "  " = "" ∧
     (processRecording "  " "ok" "t1" "t2" initialState).conversationHistory =
       initialState.conversationHistory) :=
  ⟨⟨by decide, (conversation_transcript_append "hi" "ok" "t1" "t2" initialState).1 (by decide)⟩,
   ⟨by decide, (conversation_transcript_append "  " "ok" "t1" "t2" initialState).2 (by decide)⟩⟩

/-- Claim C4: both conversation request call sites send a slide context
whose `slide_number` is `currentSlide + 1` (1-based), whose `transcript`
is the transcript of the current slide (empty string when there is no current
slide or it has no transcript), and whose `slide_image_url` is the
image URL of the current slide; the `askQuestion` context coincides with the
`startConversation` one. -/
theorem slide_context_matches_current_slide (s : AppState)
    (slideImages : List SlideImage) :
    (startConversationContext s slideImages).slide_number = s.currentSlide + 1 ∧
    (startConversationContext s slideImages).transcript =
      ((getCurrentSlideData s).bind Slide.transcript).getD "" ∧
    (startConversationContext s slideImages).slide_image_url =
      getCurrentSlideImageUrl slideImages s.currentSlide ∧
    askQuestionContext s slideImages = startConversationContext s slideImages := by
  refine ⟨rfl, ?_, rfl, rfl⟩
  show (match getCurrentSlideData s with
        | some slideData => slideData.transcript.getD ""
        | none => "") = ((getCurrentSlideData s).bind Slide.transcript).getD ""
  cases getCurrentSlideData s with
  | none => rfl
  | some slideData => rfl

/-- Claim C5: when the configured topic trims to the empty string,
`handleStartGeneration` returns early: the store is unchanged (so
`isGenerating` keeps its value, in particular `false`) and no
generate-course request is issued.  For a topic that does not trim to
the empty string (and a successful socket connection step) it sets
`isGenerating` to `true` and issues the request with the current
`courseConfig`. -/
theorem generation_requires_topic (s : AppState) (t : String) (connectOk : Bool)
    (htopic : s.courseConfig "topic" = some (JsVal.vstr t)) :
    (jsTrim t = "" → handleStartGeneration connectOk s = (s, none)) ∧
    (jsTrim t ≠ "" → connectOk = true →
      (handleStartGeneration connectOk s).1.isGenerating = true ∧
      (handleStartGeneration connectOk s).2 = some ⟨s.courseConfig⟩ ∧
      (handleStartGeneration connectOk s).1 = setGenerating true s) := by
  constructor
  · intro h
    unfold handleStartGeneration
    rw [htopic]
    simp [h]
  · intro h hok
    unfold handleStartGeneration
    rw [htopic]
    simp [h, hok, setGenerating]

/-- A state whose topic is set, used by the C5 witness. -/
def wTopicState : AppState :=
  updateCourseConfig (objOfList [("topic", .vstr "Linear Algebra")]) initialState

/-- Witness for claim C5: the initial store (empty topic) yields no
request and an unchanged store; after `updateCourseConfig` sets the
topic, generation starts and the request carries the config. -/
theorem generation_requires_topic_witness :
    (initialState.courseConfig "topic" = some (JsVal.vstr "") ∧
     jsTrim "" = "" ∧
     handleStartGeneration true initialState = (initialState, none)) ∧
    (wTopicState.courseConfig "topic" = some (JsVal.vstr "Linear Algebra") ∧
     jsTrim "Linear Algebra" ≠ "" ∧
     (handleStartGeneration true wTopicState).1.isGenerating = true ∧
     (handleStartGeneration true wTopicState).2 = some ⟨wTopicState.courseConfig⟩) :=
  ⟨⟨rfl, by decide,
    (generation_requires_topic initialState "" true rfl).1 (by decide)⟩,
   ⟨rfl, by decide,
    ((generation_requires_topic wTopicState "Linear Algebra" true rfl).2 (by decide) rfl).1,
    ((generation_requires_topic wTopicState "Linear Algebra" true rfl).2 (by decide) rfl).2.1⟩⟩

theorem pauseAudio_shown (p : Player.PlayerState) :
    (Player.pauseAudio p).showResumeOptions = p.showResumeOptions := by
  unfold Player.pauseAudio
  cases p.audioPos <;> rfl

theorem pauseAudio_active (p : Player.PlayerState) :
    (Player.pauseAudio p).isConversationActive = p.isConversationActive := by
  unfold Player.pauseAudio
  cases p.audioPos <;> rfl

theorem startSlideAudio_shown (hasAudio : Bool) (op : Option Rat)
    (p : Player.PlayerState) :
    (Player.startSlideAudio hasAudio op p).showResumeOptions = p.showResumeOptions := by
  unfold Player.startSlideAudio
  split <;> rfl

theorem startSlideAudio_active (hasAudio : Bool) (op : Option Rat)
    (p : Player.PlayerState) :
    (Player.startSlideAudio hasAudio op p).isConversationActive = p.isConversationActive := by
  unfold Player.startSlideAudio
  split <;> rfl

theorem handleSlideChange_shown (p : Player.PlayerState) :
    (Player.handleSlideChange p).showResumeOptions = p.showResumeOptions :=
  pauseAudio_shown p

theorem handleSlideChange_active (p : Player.PlayerState) :
    (Player.handleSlideChange p).isConversationActive = p.isConversationActive :=
  pauseAudio_active p

theorem startConversation_shown (p : Player.PlayerState) :
    (Player.startConversation p).showResumeOptions = p.showResumeOptions := by
  unfold Player.startConversation
  split <;> rfl

theorem endConversation_active (p : Player.PlayerState) :
    (Player.endConversation p).isConversationActive = false := by
  unfold Player.endConversation
  split <;> rfl

theorem endConversation_shown (p : Player.PlayerState) :
    (Player.endConversation p).showResumeOptions =
      (if 0 < p.pausedPosition then true else p.showResumeOptions) := by
  unfold Player.endConversation
  split <;> rfl

theorem resumeAudio_shown (fromBeginning hasAudio : Bool) (p : Player.PlayerState) :
    (Player.resumeAudio fromBeginning hasAudio p).showResumeOptions = false := by
  unfold Player.resumeAudio
  split <;> rw [startSlideAudio_shown]

/-- Invariant of the player: whenever a conversation is active, the
resume-options dialog is not showing (the dialog only appears from
`endConversation`, which deactivates the conversation first, and its
modal overlay prevents any interaction other than `resumeAudio`, which
hides it again). -/
theorem reachable_conv_no_dialog {p : Player.PlayerState}
    (hr : Player.Reachable p) :
    p.isConversationActive = true → p.showResumeOptions = false := by
  induction hr with
  | init => intro _; rfl
  | step hr hs ih =>
    cases hs with
    | pause hg =>
      intro ha
      rw [pauseAudio_active] at ha
      rw [pauseAudio_shown]
      exact ih ha
    | play hasAudio hg =>
      intro ha
      rw [startSlideAudio_active] at ha
      rw [startSlideAudio_shown]
      exact ih ha
    | slideChange hg =>
      intro ha
      rw [handleSlideChange_active] at ha
      rw [handleSlideChange_shown]
      exact ih ha
    | convoStart hg hact =>
      intro _
      rw [startConversation_shown]
      exact hg
    | convoEnd hact =>
      intro ha
      rw [endConversation_active] at ha
      exact absurd ha (by simp)
    | resume fromBeginning hasAudio hg =>
      intro _
      exact resumeAudio_shown fromBeginning hasAudio _
    | ended =>
      intro ha
      exact ih ha

/-- Claim C6: `pauseAudio` records the position of the audio element in
`pausedPosition` and stops playback; `resumeAudio(false)` starts the
audio at `pausedPosition`; `resumeAudio(true)` resets `pausedPosition`
to `0` and starts the audio at `0`; and ending a conversation from any
reachable state shows the resume-options dialog exactly when
`pausedPosition > 0`. -/
theorem pause_resume_round_trip (p : Player.PlayerState) (pos : Rat) :
    (p.audioPos = some pos →
      (Player.pauseAudio p).pausedPosition = pos ∧
      (Player.pauseAudio p).isPlaying = false) ∧
    ((Player.resumeAudio false true p).audioPos = some p.pausedPosition ∧
     (Player.resumeAudio false true p).isPlaying = true ∧
     (Player.resumeAudio false true p).showResumeOptions = false) ∧
    ((Player.resumeAudio true true p).audioPos = some 0 ∧
     (Player.resumeAudio true true p).pausedPosition = 0 ∧
     (Player.resumeAudio true true p).isPlaying = true ∧
     (Player.resumeAudio true true p).showResumeOptions = false) ∧
    (Player.Reachable p → p.isConversationActive = true →
      ((Player.endConversation p).showResumeOptions = true ↔
        0 < p.pausedPosition)) := by
  refine ⟨?_, ⟨rfl, rfl, rfl⟩, ⟨rfl, rfl, rfl, rfl⟩, ?_⟩
  · intro h
    simp [Player.pauseAudio, h]
  · intro hr ha
    have hnd := reachable_conv_no_dialog hr ha
    rw [endConversation_shown]
    by_cases hpp : 0 < p.pausedPosition <;> simp [hpp, hnd]

/-- A reachable player state with an active conversation: audio was
started on the first slide, then a conversation was opened (pausing the
audio at position `0`). -/
def wPlayer : Player.PlayerState :=
  Player.startConversation (Player.startSlideAudio true none Player.initPlayer)

/-- Witness for claim C6 at `wPlayer`. -/
theorem pause_resume_round_trip_witness :
    (wPlayer.audioPos = some 0 ∧
     Player.Reachable wPlayer ∧
     wPlayer.isConversationActive = true) ∧
    ((Player.pauseAudio wPlayer).pausedPosition = 0 ∧
     (Player.pauseAudio wPlayer).isPlaying = false) ∧
    ((Player.endConversation wPlayer).showResumeOptions = true ↔
      0 < wPlayer.pausedPosition) :=
  have hreach : Player.Reachable wPlayer :=
    Player.Reachable.step
      (Player.Reachable.step Player.Reachable.init
        (Player.Step.play Player.initPlayer true rfl))
      (Player.Step.convoStart (Player.startSlideAudio true none Player.initPlayer) rfl rfl)
  ⟨⟨rfl, hreach, rfl⟩,
   (pause_resume_round_trip wPlayer 0).1 rfl,
   (pause_resume_round_trip wPlayer 0).2.2.2 hreach rfl⟩

/-- Claim C7: `addConversationMessage` appends the message at the end of
`conversationHistory`, leaving every earlier entry (and the order) in
place, and `clearConversationHistory` resets it to the empty list. -/
theorem transcript_append_only (m : Message) (s : AppState) :
    (addConversationMessage m s).conversationHistory =
      s.conversationHistory ++ [m] ∧
    (addConversationMessage m s).conversationHistory.length =
      s.conversationHistory.length + 1 ∧
    (∀ i : Nat, i < s.conversationHistory.length →
      (addConversationMessage m s).conversationHistory[i]? =
        s.conversationHistory[i]?) ∧
    (clearConversationHistory s).conversationHistory = [] := by
  refine ⟨rfl, by simp [addConversationMessage], ?_, rfl⟩
  intro i hi
  show (s.conversationHistory ++ [m])[i]? = s.conversationHistory[i]?
  rw [List.getElem?_append_left hi]

/-- A state with a one-message transcript, for the C7 witness. -/
def wChatState : AppState :=
  { initialState with conversationHistory := [⟨"user", "q", "t0"⟩] }

/-- Witness for claim C7 at a concrete transcript. -/
theorem transcript_append_only_witness :
    ((0 : Nat) < wChatState.conversationHistory.length) ∧
    (addConversationMessage ⟨"teacher", "a", "t1"⟩ wChatState).conversationHistory[0]? =
      wChatState.conversationHistory[0]? ∧
    (addConversationMessage ⟨"teacher", "a", "t1"⟩ wChatState).conversationHistory =
      wChatState.conversationHistory ++ [⟨"teacher", "a", "t1"⟩] :=
  ⟨by decide,
   (transcript_append_only ⟨"teacher", "a", "t1"⟩ wChatState).2.2.1 0 (by decide),
   (transcript_append_only ⟨"teacher", "a", "t1"⟩ wChatState).1⟩

/-- Claim C8: `updateCourseConfig` keeps exactly the keys of the update
(with the values of the update) and leaves the other keys of `courseConfig` and
every other store field unchanged; `updateUserSettings` does the same
on `userSettings`. -/
theorem config_update_shallow_merge (s : AppState) (u : Obj) (k : String) (v : JsVal) :
    ((u k = some v → (updateCourseConfig u s).courseConfig k = some v) ∧
     (u k = none → (updateCourseConfig u s).courseConfig k = s.courseConfig k) ∧
     (u k = some v → (updateUserSettings u s).userSettings k = some v) ∧
     (u k = none → (updateUserSettings u s).userSettings k = s.userSettings k)) ∧
    ((updateCourseConfig u s).isGenerating = s.isGenerating ∧
     (updateCourseConfig u s).currentStep = s.currentStep ∧
     (updateCourseConfig u s).progress = s.progress ∧
     (updateCourseConfig u s).userSettings = s.userSettings ∧
     (updateCourseConfig u s).availableVoices = s.availableVoices ∧
     (updateCourseConfig u s).courseTemplates = s.courseTemplates ∧
     (updateCourseConfig u s).currentSession = s.currentSession ∧
     (updateCourseConfig u s).currentCourse = s.currentCourse ∧
     (updateCourseConfig u s).courses = s.courses ∧
     (updateCourseConfig u s).currentSlide = s.currentSlide ∧
     (updateCourseConfig u s).isPlaying = s.isPlaying ∧
     (updateCourseConfig u s).audioProgress = s.audioProgress ∧
     (updateCourseConfig u s).isConversationActive = s.isConversationActive ∧
     (updateCourseConfig u s).conversationHistory = s.conversationHistory) ∧
    ((updateUserSettings u s).isGenerating = s.isGenerating ∧
     (updateUserSettings u s).currentStep = s.currentStep ∧
     (updateUserSettings u s).progress = s.progress ∧
     (updateUserSettings u s).courseConfig = s.courseConfig ∧
     (updateUserSettings u s).availableVoices = s.availableVoices ∧
     (updateUserSettings u s).courseTemplates = s.courseTemplates ∧
     (updateUserSettings u s).currentSession = s.currentSession ∧
     (updateUserSettings u s).currentCourse = s.currentCourse ∧
     (updateUserSettings u s).courses = s.courses ∧
     (updateUserSettings u s).currentSlide = s.currentSlide ∧
     (updateUserSettings u s).isPlaying = s.isPlaying ∧
     (updateUserSettings u s).audioProgress = s.audioProgress ∧
     (updateUserSettings u s).isConversationActive = s.isConversationActive ∧
     (updateUserSettings u s).conversationHistory = s.conversationHistory) := by
  refine ⟨⟨?_, ?_, ?_, ?_⟩,
    ⟨rfl, rfl, rfl, rfl, rfl, rfl, rfl, rfl, rfl, rfl, rfl, rfl, rfl, rfl⟩,
    ⟨rfl, rfl, rfl, rfl, rfl, rfl, rfl, rfl, rfl, rfl, rfl, rfl, rfl, rfl⟩⟩
  · intro h
    show jsSpread s.courseConfig u k = some v
    unfold jsSpread
    rw [h]
  · intro h
    show jsSpread s.courseConfig u k = s.courseConfig k
    unfold jsSpread
    rw [h]
  · intro h
    show jsSpread s.userSettings u k = some v
    unfold jsSpread
    rw [h]
  · intro h
    show jsSpread s.userSettings u k = s.userSettings k
    unfold jsSpread
    rw [h]

/-- An update object defined on every key, for the C8 witness. -/
def wUpdateAll : Obj := fun _ => some (.vstr "x")

/-- An update object defined on no key, for the C8 witness. -/
def wUpdateNone : Obj := fun _ => none

/-- Witness for claim C8 at concrete update objects. -/
theorem config_update_shallow_merge_witness :
    (wUpdateAll "topic" = some (JsVal.vstr "x") ∧
     (updateCourseConfig wUpdateAll initialState).courseConfig "topic" =
       some (JsVal.vstr "x")) ∧
    (wUpdateNone "topic" = none ∧
     (updateCourseConfig wUpdateNone initialState).courseConfig "topic" =
       initialState.courseConfig "topic") ∧
    ((updateUserSettings wUpdateAll initialState).userSettings "tts" =
       some (JsVal.vstr "x")) ∧
    ((updateCourseConfig wUpdateAll initialState).userSettings =
       initialState.userSettings) :=
  ⟨⟨rfl, (config_update_shallow_merge initialState wUpdateAll "topic" (.vstr "x")).1.1 rfl⟩,
   ⟨rfl, (config_update_shallow_merge initialState wUpdateNone "topic" (.vstr "x")).1.2.1 rfl⟩,
   (config_update_shallow_merge initialState wUpdateAll "tts" (.vstr "x")).1.2.2.1 rfl,
   (config_update_shallow_merge initialState wUpdateAll "topic" (.vstr "x")).2.1.2.2.2.1⟩

theorem filter_self_idem {α : Type} (f : α → Bool) (l : List α) :
    (l.filter f).filter f = l.filter f := by
  induction l with
  | nil => rfl
  | cons a t ih =>
    by_cases h : f a = true <;> simp [List.filter_cons, h, ih]

/-- Claim C9: `removeCourse` is idempotent on the library list, and on a
library containing no course with the given session id, `addCourse` of a
course with that session id followed by `removeCourse` of it restores
the original list (order included). -/
theorem library_add_remove_inverse (s : AppState) (sid : String) (c : Course)
    (hc : c.session_id = sid)
    (hfresh : ∀ d ∈ s.courses, d.session_id ≠ sid) :
    (removeCourse sid (removeCourse sid s)).courses = (removeCourse sid s).courses ∧
    (removeCourse sid (addCourse c s)).courses = s.courses := by
  constructor
  · exact filter_self_idem _ s.courses
  · show ((c :: s.courses).filter fun d => !(d.session_id == sid)) = s.courses
    rw [List.filter_cons]
    simp only [hc, beq_self_eq_true, Bool.not_true, Bool.false_eq_true, if_false]
    rw [List.filter_eq_self]
    intro d hd
    simpa using hfresh d hd

/-- A one-course library state for the C9 witness. -/
def wLibState : AppState :=
  { initialState with courses := [⟨"keep", "Kept course", none, []⟩] }

/-- The course added and removed in the C9 witness. -/
def wNewCourse : Course := ⟨"new", "New course", none, []⟩

/-- Witness for claim C9 at a concrete library. -/
theorem library_add_remove_inverse_witness :
    (wNewCourse.session_id = "new" ∧
     (∀ d ∈ wLibState.courses, d.session_id ≠ "new")) ∧
    (removeCourse "new" (removeCourse "new" wLibState)).courses =
      (removeCourse "new" wLibState).courses ∧
    (removeCourse "new" (addCourse wNewCourse wLibState)).courses =
      wLibState.courses :=
  ⟨⟨by decide, by decide⟩,
   (library_add_remove_inverse wLibState "new" wNewCourse (by decide) (by decide)).1,
   (library_add_remove_inverse wLibState "new" wNewCourse (by decide) (by decide)).2⟩

/-- Claim C10: `getCurrentSlideData` always returns a value: `null` when
no course is loaded, when the loaded course has no `slides_content`
list, or when `currentSlide` is negative or at least the length of the list;
otherwise the slide at index `currentSlide`. -/
theorem current_slide_data_total (s : AppState) :
    (s.currentCourse = none → getCurrentSlideData s = none) ∧
    (∀ c, s.currentCourse = some c → c.slides_content = none →
      getCurrentSlideData s = none) ∧
    (∀ c slides, s.currentCourse = some c → c.slides_content = some slides →
      (s.currentSlide < 0 → getCurrentSlideData s = none) ∧
      ((slides.length : Int) ≤ s.currentSlide → getCurrentSlideData s = none) ∧
      (∀ i : Nat, s.currentSlide = (i : Int) →
        ∀ hi : i < slides.length,
          getCurrentSlideData s = some (slides.get ⟨i, hi⟩))) := by
  refine ⟨?_, ?_, ?_⟩
  · intro h
    simp [getCurrentSlideData, h]
  · intro c hc hsc
    simp [getCurrentSlideData, hc, hsc]
  · intro c slides hc hsc
    refine ⟨?_, ?_, ?_⟩
    · intro h
      have h0 : ¬ (0 ≤ s.currentSlide) := by omega
      simp [getCurrentSlideData, hc, hsc, jsIndex, h0]
    · intro h
      by_cases h0 : 0 ≤ s.currentSlide
      · have hlen : slides.length ≤ s.currentSlide.toNat := by omega
        simp [getCurrentSlideData, hc, hsc, jsIndex, h0,
          List.getElem?_eq_none hlen]
      · simp [getCurrentSlideData, hc, hsc, jsIndex, h0]
    · intro i hi hilen
      have h0 : 0 ≤ s.currentSlide := by omega
      simp only [getCurrentSlideData, hc, hsc, jsIndex, h0, if_true, hi,
        Int.toNat_natCast]
      rw [List.getElem?_eq_getElem hilen]
      simp

/-- A loaded one-slide course state for the C10 witness. -/
def wViewState : AppState :=
  { initialState with
      currentCourse := some ⟨"view", "Viewed course",
        some [⟨some "T", none, some "hello"⟩], []⟩ }

/-- The same course state with a negative slide index. -/
def wViewStateNeg : AppState := { wViewState with currentSlide := -1 }

/-- Witness for claim C10: `null` with no course loaded, `null` at a
negative index, and the slide itself at index `0`. -/
theorem current_slide_data_total_witness :
    (initialState.currentCourse = none ∧ getCurrentSlideData initialState = none) ∧
    (wViewStateNeg.currentSlide < 0 ∧ getCurrentSlideData wViewStateNeg = none) ∧
    getCurrentSlideData wViewState = some ⟨some "T", none, some "hello"⟩ :=
  ⟨⟨rfl, (current_slide_data_total initialState).1 rfl⟩,
   ⟨by decide,
    ((current_slide_data_total wViewStateNeg).2.2 _ _ rfl rfl).1 (by decide)⟩,
   ((current_slide_data_total wViewState).2.2 _ _ rfl rfl).2.2 0 rfl (by decide)⟩

end Teacher
